import Mathlib

/-!
Shallow embedding of the two POX controller applications of this repository:
the class SimpleLoadBalancer in simple_load_balancer.py (names beginning slb)
and the class LoadBalancerController in load_balancer_controller.py (names
beginning lbc).  Python dicts become association lists where a fresh binding
is consed on the front, so a lookup always sees the newest binding; the Python
set congested_links becomes a Finset; wall-clock timestamps (time.time()) and
the derived rates and utilization ratios become rationals; a handler that can
raise a KeyError returns an Option, with none standing for the raised error.
Every handler returns the commands (OpenFlow messages sent on the connection)
and the observable log transitions it emits, so the theorems below can speak
about exactly which messages each event produces.
-/

/-- Association-list lookup, modelling a Python dict read: the first binding
for the key wins (writes below always cons, so the newest binding shadows
older ones). -/
def lookupA {α β : Type} [DecidableEq α] : List (α × β) → α → Option β
  | [], _ => none
  | kv :: rest, a => if kv.1 = a then some kv.2 else lookupA rest a

/-- Association-list write, modelling a Python dict assignment d[k] = v. -/
def insertA {α β : Type} [DecidableEq α] (m : List (α × β)) (k : α) (v : β) :
    List (α × β) :=
  (k, v) :: m

/-- The ethertype dispatch performed in SimpleLoadBalancer._handle_PacketIn
(lines 79-85): ARP, LLDP and IPv6 are distinguished; everything else takes
the _handle_other_packet path. -/
inductive PacketType where
  | arp
  | lldp
  | ipv6
  | other
  deriving DecidableEq

/-- The fields of a parsed packet that the handlers read: source and
destination hardware address, ethertype class, and whether parsing
succeeded (packet.parsed). -/
structure Packet where
  src : Nat
  dst : Nat
  type : PacketType
  parsed : Bool
  deriving DecidableEq

/-- Output port of an ofp_action_output: a physical port number, OFPP_FLOOD,
or OFPP_CONTROLLER. -/
inductive PortId where
  | phys (n : Nat)
  | flood
  | controller
  deriving DecidableEq

/-- Match of an ofp_flow_mod: the POX default (wildcard-all) match, or the
match extracted by ofp_match.from_packet(packet, in_port). -/
inductive MatchSpec where
  | wildcardAll
  | fromPacket (p : Packet) (inPort : Nat)
  deriving DecidableEq

/-- The OpenFlow messages the handlers send on a connection: a flow-mod
(match, output action, priority, idle timeout, hard timeout, where timeout 0
means permanent), a packet-out of the triggering packet, or a port-stats
request. -/
inductive Command where
  | flowMod (m : MatchSpec) (out : PortId) (priority idle hard : Nat)
  | packetOut (p : Packet) (out : PortId) (inPort : Nat)
  | statsRequest
  deriving DecidableEq

/-- Returns true exactly on flow-mod commands. -/
def isFlowMod : Command → Bool
  | Command.flowMod _ _ _ _ _ => true
  | _ => false

/-- Returns true exactly on packet-out commands. -/
def isPacketOut : Command → Bool
  | Command.packetOut _ _ _ => true
  | _ => false

/-- of.OFPP_MAX, the first reserved port number (0xff00). -/
def OFPP_MAX : Nat := 65280

/-- The POX ofp_flow_mod default priority, used when the handler does not set
msg.priority. -/
def OFP_DEFAULT_PRIORITY : Nat := 32768

/-- Assumed 100 Mbps link capacity in bytes per second, exactly as computed in
simple_load_balancer.py line 164: 100 * 1024 * 1024 / 8. -/
def link_capacity : ℚ := 100 * 1024 * 1024 / 8

/-- self.congestion_threshold = 0.7 (simple_load_balancer.py line 15). -/
def congestion_threshold : ℚ := 7 / 10

/-- self.monitoring_interval = 5 seconds (both controllers). -/
def monitoring_interval : ℚ := 5

/-- One entry of SimpleLoadBalancer.flow_counters: previous rx byte count,
previous tx byte count, previous sample timestamp, last computed
utilization. -/
structure PortCounter where
  prev_rx : Nat
  prev_tx : Nat
  prev_time : ℚ
  utilization : ℚ
  deriving DecidableEq

/-- One element of a PortStatsReceived event body: port number and cumulative
rx/tx byte counters. -/
structure PortStat where
  port_no : Nat
  rx_bytes : Nat
  tx_bytes : Nat
  deriving DecidableEq

/-- The mutable state of SimpleLoadBalancer: mac_table (dpid to per-switch
MAC table), flow_counters (keyed by the (dpid, port) pair that the source
encodes as the string dpid-port), and the congested_links set. -/
structure SLBState where
  mac_table : List (String × List (Nat × Nat))
  flow_counters : List ((String × Nat) × PortCounter)
  congested_links : Finset (String × Nat)
  deriving DecidableEq

/-- SimpleLoadBalancer.__init__: all tables empty. -/
def slbInit : SLBState := ⟨[], [], ∅⟩

/-- The observable congestion transitions logged by _update_link_stats:
the CONGESTION warning and the congestion-cleared message. -/
inductive Transition where
  | raised (dpid : String) (port : Nat)
  | cleared (dpid : String) (port : Nat)
  deriving DecidableEq

/-- SimpleLoadBalancer._handle_ConnectionUp: creates an empty MAC table for
the switch, sends one table-miss flow-mod (default wildcard-all match, output
to controller, priority 0, no timeouts) and then one port-stats request. -/
def slb_handle_ConnectionUp (s : SLBState) (dpid : String) : SLBState × List Command :=
  (⟨insertA s.mac_table dpid [], s.flow_counters, s.congested_links⟩,
   [Command.flowMod MatchSpec.wildcardAll PortId.controller 0 0 0, Command.statsRequest])

/-- The MAC-learning step of SimpleLoadBalancer._handle_PacketIn lines 74-75:
the source address is written only when it is absent from the per-switch
table. -/
def slbLearn (tbl : List (Nat × Nat)) (src inPort : Nat) : List (Nat × Nat) :=
  if lookupA tbl src = none then insertA tbl src inPort else tbl

/-- SimpleLoadBalancer._handle_PacketIn.  An unparsed packet is dropped with
no state change.  Otherwise the handler reads self.mac_table[dpid], which
raises KeyError (modelled none) when the switch was never seen; then it
learns the source address, and dispatches: LLDP/IPv6 are ignored, ARP is
flooded, and other packets are unicast with a flow install when the
destination is known, else flooded. -/
def slb_handle_PacketIn (s : SLBState) (dpid : String) (inPort : Nat) (p : Packet) :
    Option (SLBState × List Command) :=
  if p.parsed = false then some (s, [])
  else
    match lookupA s.mac_table dpid with
    | none => none
    | some tbl =>
      let tbl2 := slbLearn tbl p.src inPort
      let s2 : SLBState := ⟨insertA s.mac_table dpid tbl2, s.flow_counters, s.congested_links⟩
      if p.type = PacketType.lldp ∨ p.type = PacketType.ipv6 then some (s2, [])
      else if p.type = PacketType.arp then
        some (s2, [Command.packetOut p PortId.flood inPort])
      else
        match lookupA tbl2 p.dst with
        | some q =>
          some (s2,
            [Command.flowMod (MatchSpec.fromPacket p inPort) (PortId.phys q)
               OFP_DEFAULT_PRIORITY 10 30,
             Command.packetOut p (PortId.phys q) inPort])
        | none => some (s2, [Command.packetOut p PortId.flood inPort])

/-- rx_rate of _update_link_stats line 160: received-byte delta divided by
the elapsed time since the previous sample. -/
def rxRate (c : PortCounter) (rx : Nat) (now : ℚ) : ℚ :=
  ((rx : ℚ) - (c.prev_rx : ℚ)) / (now - c.prev_time)

/-- tx_rate of _update_link_stats line 161. -/
def txRate (c : PortCounter) (tx : Nat) (now : ℚ) : ℚ :=
  ((tx : ℚ) - (c.prev_tx : ℚ)) / (now - c.prev_time)

/-- utilization of _update_link_stats line 165: (rx_rate + tx_rate) divided
by the link capacity. -/
def utilizationOf (c : PortCounter) (rx tx : Nat) (now : ℚ) : ℚ :=
  (rxRate c rx now + txRate c tx now) / link_capacity

/-- SimpleLoadBalancer._update_link_stats.  Returns the new state, the rate
pair computed in this call (none on a first sample or a non-positive time
delta), and the congestion transitions logged.  A first sample for the
(dpid, port) key stores the baseline with utilization 0 and returns.  A
subsequent sample with positive elapsed time computes the rates and the
utilization, overwrites the stored counter, and then adds the key to
congested_links (logging a raise) exactly when utilization strictly exceeds
the threshold and the key was absent, or removes it (logging a clear) when
utilization is at or below threshold and the key was present. -/
def update_link_stats (s : SLBState) (dpid : String) (port : Nat) (rx tx : Nat) (now : ℚ) :
    SLBState × Option (ℚ × ℚ) × List Transition :=
  match lookupA s.flow_counters (dpid, port) with
  | none =>
    (⟨s.mac_table, insertA s.flow_counters (dpid, port) ⟨rx, tx, now, 0⟩, s.congested_links⟩,
     none, [])
  | some c =>
    if 0 < now - c.prev_time then
      let u := utilizationOf c rx tx now
      let fc2 := insertA s.flow_counters (dpid, port) ⟨rx, tx, now, u⟩
      if congestion_threshold < u then
        if (dpid, port) ∈ s.congested_links then
          (⟨s.mac_table, fc2, s.congested_links⟩, some (rxRate c rx now, txRate c tx now), [])
        else
          (⟨s.mac_table, fc2, insert (dpid, port) s.congested_links⟩,
           some (rxRate c rx now, txRate c tx now), [Transition.raised dpid port])
      else
        if (dpid, port) ∈ s.congested_links then
          (⟨s.mac_table, fc2, s.congested_links.erase (dpid, port)⟩,
           some (rxRate c rx now, txRate c tx now), [Transition.cleared dpid port])
        else
          (⟨s.mac_table, fc2, s.congested_links⟩, some (rxRate c rx now, txRate c tx now), [])
    else (s, none, [])

/-- SimpleLoadBalancer._handle_PortStatsReceived: iterates over the reported
port entries, skipping reserved port numbers (port_no at or above OFPP_MAX),
and feeds each one through _update_link_stats, collecting the logged
transitions. -/
def slb_handle_PortStatsReceived (s : SLBState) (dpid : String) (stats : List PortStat)
    (now : ℚ) : SLBState × List Transition :=
  stats.foldl
    (fun acc st =>
      if OFPP_MAX ≤ st.port_no then acc
      else
        let r := update_link_stats acc.1 dpid st.port_no st.rx_bytes st.tx_bytes now
        (r.1, acc.2 ++ r.2.2))
    (s, [])

/-- The inbound events SimpleLoadBalancer handles.  A port-stats event
carries the wall-clock time read by time.time() during its handling. -/
inductive SLBEvent where
  | connectionUp (dpid : String)
  | packetIn (dpid : String) (inPort : Nat) (p : Packet)
  | portStats (dpid : String) (stats : List PortStat) (now : ℚ)

/-- One event-handler step of SimpleLoadBalancer: the new state, the
commands sent, and the congestion transitions logged; none when the handler
raises. -/
def slb_step (s : SLBState) : SLBEvent → Option (SLBState × List Command × List Transition)
  | SLBEvent.connectionUp dpid =>
    some ((slb_handle_ConnectionUp s dpid).1, (slb_handle_ConnectionUp s dpid).2, [])
  | SLBEvent.packetIn dpid inPort p =>
    (slb_handle_PacketIn s dpid inPort p).map (fun r => (r.1, r.2, []))
  | SLBEvent.portStats dpid stats now =>
    some ((slb_handle_PortStatsReceived s dpid stats now).1, [],
          (slb_handle_PortStatsReceived s dpid stats now).2)

/-- One entry of LoadBalancerController.flow_counters: previous and current
rx/tx byte counts (this controller stores no timestamps). -/
structure LBCCounter where
  prev_rx : Nat
  prev_tx : Nat
  current_rx : Nat
  current_tx : Nat
  deriving DecidableEq

/-- The mutable state of LoadBalancerController: the set of switch ids with a
switch_stats entry (the per-switch dict is never populated), the mac_to_port
learning table, and flow_counters. -/
structure LBCState where
  switch_stats : List String
  mac_to_port : List (String × List (Nat × Nat))
  flow_counters : List ((String × Nat) × LBCCounter)
  deriving DecidableEq

/-- LoadBalancerController.__init__: all tables empty. -/
def lbcInit : LBCState := ⟨[], [], []⟩

/-- LoadBalancerController._handle_ConnectionUp: creates the per-switch
entries and sends one port-stats request.  No flow rule is installed. -/
def lbc_handle_ConnectionUp (s : LBCState) (dpid : String) : LBCState × List Command :=
  (⟨dpid :: s.switch_stats, insertA s.mac_to_port dpid [], s.flow_counters⟩,
   [Command.statsRequest])

/-- LoadBalancerController._handle_PacketIn.  An unparsed packet is ignored.
Otherwise the handler writes self.mac_to_port[dpid][packet.src] = in_port,
which raises KeyError (modelled none) when the switch was never seen; then it
looks the destination up in the updated table and calls _install_flow, which
always sends a flow-mod (idle 10, hard 30, default priority) whose action
outputs to the learned port or to OFPP_FLOOD, and sends the triggering packet
out only when the output port is not OFPP_FLOOD. -/
def lbc_handle_PacketIn (s : LBCState) (dpid : String) (inPort : Nat) (p : Packet) :
    Option (LBCState × List Command) :=
  if p.parsed = false then some (s, [])
  else
    match lookupA s.mac_to_port dpid with
    | none => none
    | some tbl =>
      let tbl2 := insertA tbl p.src inPort
      let s2 : LBCState := ⟨s.switch_stats, insertA s.mac_to_port dpid tbl2, s.flow_counters⟩
      match lookupA tbl2 p.dst with
      | some q =>
        some (s2,
          [Command.flowMod (MatchSpec.fromPacket p inPort) (PortId.phys q)
             OFP_DEFAULT_PRIORITY 10 30,
           Command.packetOut p (PortId.phys q) inPort])
      | none =>
        some (s2,
          [Command.flowMod (MatchSpec.fromPacket p inPort) PortId.flood
             OFP_DEFAULT_PRIORITY 10 30])

/-- The log lines LoadBalancerController._handle_PortStatsReceived can emit
for one port entry: the rate log (emitted when either usage exceeds 1000 B/s)
and the potential-congestion warning (emitted when the summed usage exceeds
1000000 B/s). -/
inductive LBCLog where
  | statsLog (dpid : String) (port : Nat) (rxu txu : ℚ)
  | congestionWarn (dpid : String) (port : Nat) (total : ℚ)
  deriving DecidableEq

/-- The body of LoadBalancerController._handle_PortStatsReceived for one
reported port entry: updates flow_counters (first sample stores the bytes as
both previous and current; later samples shift current to previous), then
divides the byte deltas by the fixed monitoring interval, and emits the
applicable log lines.  Returns the new flow_counters, the computed usage
pair, and the emitted logs. -/
def lbc_process_stat (fc : List ((String × Nat) × LBCCounter)) (dpid : String)
    (st : PortStat) : List ((String × Nat) × LBCCounter) × (ℚ × ℚ) × List LBCLog :=
  let key := (dpid, st.port_no)
  let c2 : LBCCounter :=
    match lookupA fc key with
    | none => ⟨st.rx_bytes, st.tx_bytes, st.rx_bytes, st.tx_bytes⟩
    | some c => ⟨c.current_rx, c.current_tx, st.rx_bytes, st.tx_bytes⟩
  let fc2 := insertA fc key c2
  let rxu : ℚ := ((st.rx_bytes : ℚ) - (c2.prev_rx : ℚ)) / monitoring_interval
  let txu : ℚ := ((st.tx_bytes : ℚ) - (c2.prev_tx : ℚ)) / monitoring_interval
  let logs :=
    (if 1000 < rxu ∨ 1000 < txu then [LBCLog.statsLog dpid st.port_no rxu txu] else []) ++
    (if 1000000 < rxu + txu then [LBCLog.congestionWarn dpid st.port_no (rxu + txu)] else [])
  (fc2, (rxu, txu), logs)

/-- The congestion-consistency invariant of SimpleLoadBalancer's statistics
state: every key of the congested set has a flow_counters entry, and a key
with a flow_counters entry is congested exactly when that entry's stored
utilization strictly exceeds the congestion threshold.  In particular a
freshly created entry, which stores utilization 0, is never in the congested
set, because 0 does not exceed the threshold 7/10. -/
def SLBInv (s : SLBState) : Prop :=
  (∀ k, k ∈ s.congested_links → (lookupA s.flow_counters k).isSome = true) ∧
  (∀ k c, lookupA s.flow_counters k = some c →
    (k ∈ s.congested_links ↔ congestion_threshold < c.utilization))

/-- Reading an association list directly after writing a key returns the
written value. -/
theorem lookupA_insertA_self {α β : Type} [DecidableEq α] (m : List (α × β)) (k : α) (v : β) :
    lookupA (insertA m k v) k = some v := by
  simp [lookupA, insertA]

/-- Writing one key leaves lookups of every other key unchanged. -/
theorem lookupA_insertA_ne {α β : Type} [DecidableEq α] (m : List (α × β)) (k a : α) (v : β)
    (h : a ≠ k) : lookupA (insertA m k v) a = lookupA m a := by
  simp [lookupA, insertA, Ne.symm h]

/-- Claim C8, amended: on every connection-up, SimpleLoadBalancer sends
exactly one flow-mod — the table-miss rule with wildcard-all match, output to
controller, priority 0 and no timeouts — followed by the first stats request,
before any packet-in from that switch can be processed; LoadBalancerController
installs no rule at all on connection-up, sending only a stats request. -/
theorem c8_tableMiss_amended :
    (∀ (s : SLBState) (dpid : String),
      (slb_handle_ConnectionUp s dpid).2 =
        [Command.flowMod MatchSpec.wildcardAll PortId.controller 0 0 0,
         Command.statsRequest]) ∧
    (∀ (s : LBCState) (dpid : String),
      (lbc_handle_ConnectionUp s dpid).2 = [Command.statsRequest]) :=
  ⟨fun _ _ => rfl, fun _ _ => rfl⟩

/-- Claim C8 fails as stated: LoadBalancerController handles a concrete
connection-up by sending only a stats request — its command list contains no
flow-mod, so no table-miss rule is installed for that switch. -/
theorem c8_counterexample :
    (lbc_handle_ConnectionUp lbcInit "00-00-00-00-00-01").2 = [Command.statsRequest] ∧
    ((lbc_handle_ConnectionUp lbcInit "00-00-00-00-00-01").2.filter isFlowMod) = [] :=
  ⟨rfl, rfl⟩

/-- Claim C2, amended: the per-switch learning table is created empty by the
connection-up handler, not implicitly on packet-in.  When the table exists the
packet-in handler always completes (returns some result); when the switch was
never seen, a parsed packet-in raises a key-lookup error (modelled none) in
both controllers. -/
theorem c2_unseen_switch_amended :
    (∀ (s : SLBState) (dpid : String),
      lookupA (slb_handle_ConnectionUp s dpid).1.mac_table dpid = some []) ∧
    (∀ (s : SLBState) (dpid : String) (inPort : Nat) (p : Packet),
      (lookupA s.mac_table dpid).isSome = true →
      (slb_handle_PacketIn s dpid inPort p).isSome = true) ∧
    (∀ (s : SLBState) (dpid : String) (inPort : Nat) (p : Packet),
      p.parsed = true → lookupA s.mac_table dpid = none →
      slb_handle_PacketIn s dpid inPort p = none) ∧
    (∀ (s : LBCState) (dpid : String),
      lookupA (lbc_handle_ConnectionUp s dpid).1.mac_to_port dpid = some []) ∧
    (∀ (s : LBCState) (dpid : String) (inPort : Nat) (p : Packet),
      (lookupA s.mac_to_port dpid).isSome = true →
      (lbc_handle_PacketIn s dpid inPort p).isSome = true) ∧
    (∀ (s : LBCState) (dpid : String) (inPort : Nat) (p : Packet),
      p.parsed = true → lookupA s.mac_to_port dpid = none →
      lbc_handle_PacketIn s dpid inPort p = none) := by
  refine ⟨fun s dpid => lookupA_insertA_self s.mac_table dpid [], ?_, ?_,
          fun s dpid => lookupA_insertA_self s.mac_to_port dpid [], ?_, ?_⟩
  · intro s dpid inPort p h
    unfold slb_handle_PacketIn
    split
    · rfl
    · cases hm : lookupA s.mac_table dpid with
      | none => rw [hm] at h; simp at h
      | some tbl =>
        by_cases h1 : p.type = PacketType.lldp ∨ p.type = PacketType.ipv6
        · simp [h1]
        · by_cases h2 : p.type = PacketType.arp
          · simp [h1, h2]
          · cases hd : lookupA (slbLearn tbl p.src inPort) p.dst <;> simp [h1, h2, hd]
  · intro s dpid inPort p hp hm
    unfold slb_handle_PacketIn
    rw [hm, hp]
    simp
  · intro s dpid inPort p h
    unfold lbc_handle_PacketIn
    split
    · rfl
    · cases hm : lookupA s.mac_to_port dpid with
      | none => rw [hm] at h; simp at h
      | some tbl =>
        cases hd : lookupA (insertA tbl p.src inPort) p.dst <;> simp [hd]
  · intro s dpid inPort p hp hm
    unfold lbc_handle_PacketIn
    rw [hm, hp]
    simp

/-- Witness for the amended claim C2 at concrete inputs: after a switch table
exists, a packet-in completes in both controllers. -/
theorem c2_unseen_switch_witness :
    (slb_handle_PacketIn ⟨[("s1", [])], [], ∅⟩ "s1" 1 ⟨10, 99, PacketType.other, true⟩).isSome
        = true ∧
    (lbc_handle_PacketIn ⟨["s1"], [("s1", [])], []⟩ "s1" 1
        ⟨10, 99, PacketType.other, true⟩).isSome = true :=
  ⟨c2_unseen_switch_amended.2.1 ⟨[("s1", [])], [], ∅⟩ "s1" 1 ⟨10, 99, PacketType.other, true⟩
     (by decide),
   c2_unseen_switch_amended.2.2.2.2.1 ⟨["s1"], [("s1", [])], []⟩ "s1" 1
     ⟨10, 99, PacketType.other, true⟩ (by decide)⟩

/-- Claim C2 fails as stated: a parsed packet-in carrying a switch id for
which no connection-up was processed makes both packet-in handlers raise a
key-lookup error (modelled none) instead of implicitly creating an empty
table. -/
theorem c2_counterexample :
    slb_handle_PacketIn slbInit "s1" 1 ⟨10, 99, PacketType.other, true⟩ = none ∧
    lbc_handle_PacketIn lbcInit "s1" 1 ⟨10, 99, PacketType.other, true⟩ = none :=
  ⟨rfl, rfl⟩

/-- Claim C3: for every parsed packet-in handled by SimpleLoadBalancer, an
ARP packet yields exactly one flood packet-out regardless of the learning
table contents, and an LLDP or IPv6 packet yields no command at all (no
flow-mod, no packet-out). -/
theorem c3_arp_flood_lldp_ipv6_drop :
    ∀ (s : SLBState) (dpid : String) (tbl : List (Nat × Nat)) (inPort : Nat) (p : Packet),
      lookupA s.mac_table dpid = some tbl → p.parsed = true →
      ((p.type = PacketType.arp →
        slb_handle_PacketIn s dpid inPort p =
          some (⟨insertA s.mac_table dpid (slbLearn tbl p.src inPort), s.flow_counters,
                 s.congested_links⟩,
                [Command.packetOut p PortId.flood inPort])) ∧
       ((p.type = PacketType.lldp ∨ p.type = PacketType.ipv6) →
        slb_handle_PacketIn s dpid inPort p =
          some (⟨insertA s.mac_table dpid (slbLearn tbl p.src inPort), s.flow_counters,
                 s.congested_links⟩, []))) := by
  intro s dpid tbl inPort p hm hp
  constructor
  · intro ht
    simp [slb_handle_PacketIn, hm, hp, ht]
  · intro ht
    rcases ht with ht | ht <;> simp [slb_handle_PacketIn, hm, hp, ht]

/-- Witness for claim C3 at a concrete input: an ARP packet whose destination
is already learned still floods (it is not unicast-short-circuited). -/
theorem c3_witness :
    slb_handle_PacketIn ⟨[("s1", [(99, 7)])], [], ∅⟩ "s1" 1 ⟨10, 99, PacketType.arp, true⟩ =
      some (⟨[("s1", [(10, 1), (99, 7)]), ("s1", [(99, 7)])], [], ∅⟩,
            [Command.packetOut ⟨10, 99, PacketType.arp, true⟩ PortId.flood 1]) :=
  (c3_arp_flood_lldp_ipv6_drop ⟨[("s1", [(99, 7)])], [], ∅⟩ "s1" [(99, 7)] 1
    ⟨10, 99, PacketType.arp, true⟩ rfl rfl).1 rfl

/-- The learned port that SimpleLoadBalancer sees for a packet's own source
address right after learning it: the previously learned port when one exists,
else the ingress port of this packet. -/
theorem lookupA_slbLearn (tbl : List (Nat × Nat)) (src inPort : Nat) :
    lookupA (slbLearn tbl src inPort) src = some ((lookupA tbl src).getD inPort) := by
  unfold slbLearn
  cases hs : lookupA tbl src with
  | none => simp [hs, lookupA_insertA_self]
  | some q => simp [hs]

/-- Claim C1 fails as stated on SimpleLoadBalancer: with address 10 already
learned on port 1 of switch s1, a further parsed packet from the same source
address arriving on port 2 leaves the entry at port 1 (the handler writes
only when the address is absent), so the lookup after the last observation
returns the first observed port 1, not the most recently observed port 2. -/
theorem c1_counterexample :
    (match slb_handle_PacketIn ⟨[("s1", [(10, 1)])], [], ∅⟩ "s1" 2
        ⟨10, 99, PacketType.other, true⟩ with
     | some r => lookupA ((lookupA r.1.mac_table "s1").getD []) 10
     | none => none) = some 1 ∧ (1 : Nat) ≠ 2 :=
  ⟨rfl, by decide⟩

/-- Claim C1, amended: LoadBalancerController unconditionally upserts the
source address to the ingress port on every packet-in (latest write wins),
while SimpleLoadBalancer writes the source address only when it is absent, so
a lookup after the last observation returns the FIRST observed port for that
address (first write wins), falling back to the current ingress port only for
a previously unseen address. -/
theorem c1_learning_amended :
    (∀ (s : LBCState) (dpid : String) (tbl : List (Nat × Nat)) (inPort : Nat) (p : Packet)
       (r : LBCState × List Command),
      lookupA s.mac_to_port dpid = some tbl → p.parsed = true →
      lbc_handle_PacketIn s dpid inPort p = some r →
      lookupA ((lookupA r.1.mac_to_port dpid).getD []) p.src = some inPort) ∧
    (∀ (s : SLBState) (dpid : String) (tbl : List (Nat × Nat)) (inPort : Nat) (p : Packet)
       (r : SLBState × List Command),
      lookupA s.mac_table dpid = some tbl → p.parsed = true →
      slb_handle_PacketIn s dpid inPort p = some r →
      lookupA ((lookupA r.1.mac_table dpid).getD []) p.src =
        some ((lookupA tbl p.src).getD inPort)) := by
  constructor
  · intro s dpid tbl inPort p r hm hp he
    obtain ⟨r1, r2⟩ := r
    cases hd : lookupA (insertA tbl p.src inPort) p.dst <;>
      simp [lbc_handle_PacketIn, hp, hm, hd] at he <;>
      obtain ⟨rfl, rfl⟩ := he <;>
      simp [lookupA_insertA_self]
  · intro s dpid tbl inPort p r hm hp he
    obtain ⟨r1, r2⟩ := r
    by_cases h1 : p.type = PacketType.lldp ∨ p.type = PacketType.ipv6
    · simp [slb_handle_PacketIn, hp, hm, h1] at he
      obtain ⟨rfl, rfl⟩ := he
      simp [lookupA_insertA_self, lookupA_slbLearn]
    · by_cases h2 : p.type = PacketType.arp
      · simp [slb_handle_PacketIn, hp, hm, h1, h2] at he
        obtain ⟨rfl, rfl⟩ := he
        simp [lookupA_insertA_self, lookupA_slbLearn]
      · cases hd : lookupA (slbLearn tbl p.src inPort) p.dst <;>
          simp [slb_handle_PacketIn, hp, hm, h1, h2, hd] at he <;>
          obtain ⟨rfl, rfl⟩ := he <;>
          simp [lookupA_insertA_self, lookupA_slbLearn]

/-- Witness for the amended claim C1 at concrete inputs: after address 10,
already learned on port 1, is seen again on port 2, LoadBalancerController's
table answers port 2 while SimpleLoadBalancer's table still answers port 1. -/
theorem c1_learning_witness :
    lookupA ((lookupA [("s1", [(10, 2), (10, 1)]), ("s1", [(10, 1)])] "s1").getD []) 10 =
        some 2 ∧
    lookupA ((lookupA [("s1", [(10, 1)]), ("s1", [(10, 1)])] "s1").getD []) 10 = some 1 :=
  ⟨c1_learning_amended.1 ⟨["s1"], [("s1", [(10, 1)])], []⟩ "s1" [(10, 1)] 2
     ⟨10, 99, PacketType.other, true⟩
     (⟨["s1"], [("s1", [(10, 2), (10, 1)]), ("s1", [(10, 1)])], []⟩,
      [Command.flowMod (MatchSpec.fromPacket ⟨10, 99, PacketType.other, true⟩ 2) PortId.flood
         OFP_DEFAULT_PRIORITY 10 30]) rfl rfl rfl,
   c1_learning_amended.2 ⟨[("s1", [(10, 1)])], [], ∅⟩ "s1" [(10, 1)] 2
     ⟨10, 99, PacketType.other, true⟩
     (⟨[("s1", [(10, 1)]), ("s1", [(10, 1)])], [], ∅⟩,
      [Command.packetOut ⟨10, 99, PacketType.other, true⟩ PortId.flood 2]) rfl rfl rfl⟩

/-- Claim C4 fails as stated on LoadBalancerController: a concrete parsed
packet-in whose destination is unknown (a flood decision) makes that handler
send one flow-mod (a standing rule with the flood action) and zero
packet-outs, whereas the claim requires no flow rule and exactly one
packet-out. -/
theorem c4_counterexample :
    (match lbc_handle_PacketIn ⟨["s1"], [("s1", [])], []⟩ "s1" 1
        ⟨10, 99, PacketType.other, true⟩ with
     | some r => ((r.2.filter isFlowMod).length, (r.2.filter isPacketOut).length)
     | none => (0, 0)) = (1, 0) ∧ (1 : Nat) ≠ 0 :=
  ⟨rfl, by decide⟩

/-- Claim C4, amended: in SimpleLoadBalancer a flood decision (unknown
destination, or any ARP packet) installs no flow rule and issues exactly one
immediate packet-out with the flood action, so repeated packets to the same
unknown destination flood again; in LoadBalancerController a flood-case
packet-in instead installs a standing flow rule whose action is the flood
port (idle 10 s, hard 30 s) and issues no packet-out at all. -/
theorem c4_flood_amended :
    (∀ (s : SLBState) (dpid : String) (tbl : List (Nat × Nat)) (inPort : Nat) (p : Packet),
      lookupA s.mac_table dpid = some tbl → p.parsed = true →
      p.type = PacketType.other → lookupA (slbLearn tbl p.src inPort) p.dst = none →
      (slb_handle_PacketIn s dpid inPort p).map (fun r => r.2) =
        some [Command.packetOut p PortId.flood inPort]) ∧
    (∀ (s : SLBState) (dpid : String) (tbl : List (Nat × Nat)) (inPort : Nat) (p : Packet),
      lookupA s.mac_table dpid = some tbl → p.parsed = true → p.type = PacketType.arp →
      (slb_handle_PacketIn s dpid inPort p).map (fun r => r.2) =
        some [Command.packetOut p PortId.flood inPort]) ∧
    (∀ (s : LBCState) (dpid : String) (tbl : List (Nat × Nat)) (inPort : Nat) (p : Packet),
      lookupA s.mac_to_port dpid = some tbl → p.parsed = true →
      lookupA (insertA tbl p.src inPort) p.dst = none →
      (lbc_handle_PacketIn s dpid inPort p).map (fun r => r.2) =
        some [Command.flowMod (MatchSpec.fromPacket p inPort) PortId.flood
                OFP_DEFAULT_PRIORITY 10 30]) := by
  refine ⟨?_, ?_, ?_⟩
  · intro s dpid tbl inPort p hm hp ht hd
    simp [slb_handle_PacketIn, hm, hp, ht, hd]
  · intro s dpid tbl inPort p hm hp ht
    simp [slb_handle_PacketIn, hm, hp, ht]
  · intro s dpid tbl inPort p hm hp hd
    simp [lbc_handle_PacketIn, hm, hp, hd]

/-- Witness for the amended claim C4 at concrete inputs: the same
unknown-destination packet floods without a rule in SimpleLoadBalancer and
installs a flood rule without a packet-out in LoadBalancerController. -/
theorem c4_flood_witness :
    (slb_handle_PacketIn ⟨[("s1", [])], [], ∅⟩ "s1" 1 ⟨10, 99, PacketType.other, true⟩).map
        (fun r => r.2) =
      some [Command.packetOut ⟨10, 99, PacketType.other, true⟩ PortId.flood 1] ∧
    (lbc_handle_PacketIn ⟨["s1"], [("s1", [])], []⟩ "s1" 1
        ⟨10, 99, PacketType.other, true⟩).map (fun r => r.2) =
      some [Command.flowMod (MatchSpec.fromPacket ⟨10, 99, PacketType.other, true⟩ 1)
              PortId.flood OFP_DEFAULT_PRIORITY 10 30] :=
  ⟨c4_flood_amended.1 ⟨[("s1", [])], [], ∅⟩ "s1" [] 1 ⟨10, 99, PacketType.other, true⟩
     rfl rfl rfl rfl,
   c4_flood_amended.2.2 ⟨["s1"], [("s1", [])], []⟩ "s1" [] 1 ⟨10, 99, PacketType.other, true⟩
     rfl rfl rfl⟩

/-- Claim C9: in both controllers, a parsed packet-in whose destination is
found in the (just-updated) learning table produces exactly two commands:
one flow-mod whose match is extracted from the packet at the ingress port,
whose action outputs to the learned port, with idle timeout 10, hard timeout
30 and the default priority, followed by exactly one packet-out of the
triggering packet to that same port.  (For SimpleLoadBalancer this is its
non-ARP, non-LLDP, non-IPv6 path; LoadBalancerController treats every parsed
packet this way.) -/
theorem c9_unicast_flow_install :
    (∀ (s : SLBState) (dpid : String) (tbl : List (Nat × Nat)) (inPort : Nat) (p : Packet)
       (q : Nat),
      lookupA s.mac_table dpid = some tbl → p.parsed = true → p.type = PacketType.other →
      lookupA (slbLearn tbl p.src inPort) p.dst = some q →
      (slb_handle_PacketIn s dpid inPort p).map (fun r => r.2) =
        some [Command.flowMod (MatchSpec.fromPacket p inPort) (PortId.phys q)
                OFP_DEFAULT_PRIORITY 10 30,
              Command.packetOut p (PortId.phys q) inPort]) ∧
    (∀ (s : LBCState) (dpid : String) (tbl : List (Nat × Nat)) (inPort : Nat) (p : Packet)
       (q : Nat),
      lookupA s.mac_to_port dpid = some tbl → p.parsed = true →
      lookupA (insertA tbl p.src inPort) p.dst = some q →
      (lbc_handle_PacketIn s dpid inPort p).map (fun r => r.2) =
        some [Command.flowMod (MatchSpec.fromPacket p inPort) (PortId.phys q)
                OFP_DEFAULT_PRIORITY 10 30,
              Command.packetOut p (PortId.phys q) inPort]) := by
  constructor
  · intro s dpid tbl inPort p q hm hp ht hd
    simp [slb_handle_PacketIn, hm, hp, ht, hd]
  · intro s dpid tbl inPort p q hm hp hd
    simp [lbc_handle_PacketIn, hm, hp, hd]

/-- Witness for claim C9 at concrete inputs: destination 99 is learned on
port 7, so both controllers install the unicast rule to port 7 and forward
the triggering packet there. -/
theorem c9_unicast_witness :
    (slb_handle_PacketIn ⟨[("s1", [(99, 7)])], [], ∅⟩ "s1" 1
        ⟨10, 99, PacketType.other, true⟩).map (fun r => r.2) =
      some [Command.flowMod (MatchSpec.fromPacket ⟨10, 99, PacketType.other, true⟩ 1)
              (PortId.phys 7) OFP_DEFAULT_PRIORITY 10 30,
            Command.packetOut ⟨10, 99, PacketType.other, true⟩ (PortId.phys 7) 1] ∧
    (lbc_handle_PacketIn ⟨["s1"], [("s1", [(99, 7)])], []⟩ "s1" 1
        ⟨10, 99, PacketType.other, true⟩).map (fun r => r.2) =
      some [Command.flowMod (MatchSpec.fromPacket ⟨10, 99, PacketType.other, true⟩ 1)
              (PortId.phys 7) OFP_DEFAULT_PRIORITY 10 30,
            Command.packetOut ⟨10, 99, PacketType.other, true⟩ (PortId.phys 7) 1] :=
  ⟨c9_unicast_flow_install.1 ⟨[("s1", [(99, 7)])], [], ∅⟩ "s1" [(99, 7)] 1
     ⟨10, 99, PacketType.other, true⟩ 7 rfl rfl rfl rfl,
   c9_unicast_flow_install.2 ⟨["s1"], [("s1", [(99, 7)])], []⟩ "s1" [(99, 7)] 1
     ⟨10, 99, PacketType.other, true⟩ 7 rfl rfl rfl⟩

/-- Claim C6: the first stats sample for a (switch, port) pair only stores
the baseline.  In SimpleLoadBalancer it is stored with utilization 0 and the
call returns no rate and no transition, leaving the congested set untouched;
in LoadBalancerController it is stored with previous = current = the sampled
bytes, the computed usage pair is (0, 0), and no log event is emitted. -/
theorem c6_first_sample :
    (∀ (s : SLBState) (dpid : String) (port rx tx : Nat) (now : ℚ),
      lookupA s.flow_counters (dpid, port) = none →
      update_link_stats s dpid port rx tx now =
        (⟨s.mac_table, insertA s.flow_counters (dpid, port) ⟨rx, tx, now, 0⟩,
          s.congested_links⟩, none, [])) ∧
    (∀ (fc : List ((String × Nat) × LBCCounter)) (dpid : String) (st : PortStat),
      lookupA fc (dpid, st.port_no) = none →
      lbc_process_stat fc dpid st =
        (insertA fc (dpid, st.port_no) ⟨st.rx_bytes, st.tx_bytes, st.rx_bytes, st.tx_bytes⟩,
         (0, 0), [])) := by
  constructor
  · intro s dpid port rx tx now h
    simp [update_link_stats, h]
  · intro fc dpid st h
    simp [lbc_process_stat, h, monitoring_interval]

/-- Witness for claim C6 at concrete inputs: a first sample on switch s1
port 1 in each controller. -/
theorem c6_first_sample_witness :
    update_link_stats slbInit "s1" 1 100 200 5 =
      (⟨[], [(("s1", 1), ⟨100, 200, 5, 0⟩)], ∅⟩, none, []) ∧
    lbc_process_stat [] "s1" ⟨1, 100, 200⟩ =
      ([(("s1", 1), ⟨100, 200, 100, 200⟩)], (0, 0), []) :=
  ⟨c6_first_sample.1 slbInit "s1" 1 100 200 5 rfl,
   c6_first_sample.2 [] "s1" ⟨1, 100, 200⟩ rfl⟩

/-- Claim C7 fails as stated on LoadBalancerController: that handler keeps no
timestamps at all and divides byte deltas by the constant monitoring interval
of 5 seconds.  On a concrete second sample with a received-byte delta of
50000 it reports a rate of 10000 B/s no matter how much wall-clock time
elapsed, which differs from the claimed delta-over-elapsed-time value (50000)
for an elapsed time of 1 second. -/
theorem c7_counterexample :
    (lbc_process_stat [(("s1", 3), ⟨0, 0, 0, 0⟩)] "s1" ⟨3, 50000, 0⟩).2.1 = (10000, 0) ∧
    (10000 : ℚ) ≠ 50000 / 1 := by
  constructor
  · norm_num [lbc_process_stat, lookupA, monitoring_interval]
  · norm_num

/-- Claim C7, amended: in SimpleLoadBalancer a subsequent sample with
positive elapsed wall-clock time since that pair's previous sample yields
rates equal to the byte deltas divided by that elapsed time and overwrites
the stored baseline with the new bytes, timestamp and utilization, while a
zero or negative elapsed time yields no rate, leaves the whole state
unchanged and evaluates no transition; in LoadBalancerController the rates
of a subsequent sample are instead the byte deltas (against the previously
stored current bytes) divided by the fixed 5-second monitoring interval,
with no elapsed-time guard. -/
theorem c7_rate_amended :
    (∀ (s : SLBState) (dpid : String) (port rx tx : Nat) (now : ℚ) (c : PortCounter),
      lookupA s.flow_counters (dpid, port) = some c →
      ((0 < now - c.prev_time →
        (update_link_stats s dpid port rx tx now).2.1 =
          some (rxRate c rx now, txRate c tx now) ∧
        lookupA (update_link_stats s dpid port rx tx now).1.flow_counters (dpid, port) =
          some ⟨rx, tx, now, utilizationOf c rx tx now⟩) ∧
       (now - c.prev_time ≤ 0 →
        update_link_stats s dpid port rx tx now = (s, none, [])))) ∧
    (∀ (fc : List ((String × Nat) × LBCCounter)) (dpid : String) (st : PortStat)
       (c : LBCCounter), lookupA fc (dpid, st.port_no) = some c →
      (lbc_process_stat fc dpid st).2.1 =
        (((st.rx_bytes : ℚ) - (c.current_rx : ℚ)) / monitoring_interval,
         ((st.tx_bytes : ℚ) - (c.current_tx : ℚ)) / monitoring_interval)) := by
  constructor
  · intro s dpid port rx tx now c hc
    refine ⟨fun ht => ⟨?_, ?_⟩, fun ht => ?_⟩
    · by_cases hu : congestion_threshold < utilizationOf c rx tx now <;>
        by_cases hm2 : (dpid, port) ∈ s.congested_links <;>
        simp [update_link_stats, hc, ht, hu, hm2]
    · by_cases hu : congestion_threshold < utilizationOf c rx tx now <;>
        by_cases hm2 : (dpid, port) ∈ s.congested_links <;>
        simp [update_link_stats, hc, ht, hu, hm2, lookupA_insertA_self]
    · simp [update_link_stats, hc, not_lt.mpr ht]
  · intro fc dpid st c hc
    simp [lbc_process_stat, hc]

/-- One second of elapsed time between the sample timestamps 4 and 5 is
positive. -/
theorem dt_four_five_pos : (0 : ℚ) < 5 - 4 := by norm_num

/-- A duplicate sample at the same timestamp 4 has non-positive elapsed
time. -/
theorem dt_four_four_nonpos : (4 : ℚ) - 4 ≤ 0 := by norm_num

/-- Witness for the amended claim C7 at concrete inputs: a second sample for
switch s1 one second after the baseline in SimpleLoadBalancer (rates and
stored counter are produced), a duplicate sample at the same timestamp
(everything unchanged), and a second sample in LoadBalancerController (rates
are the deltas over the fixed interval). -/
theorem c7_rate_witness :
    ((update_link_stats ⟨[], [(("s1", 1), ⟨0, 0, 4, 0⟩)], ∅⟩ "s1" 1 5000 3000 5).2.1 =
        some (rxRate ⟨0, 0, 4, 0⟩ 5000 5, txRate ⟨0, 0, 4, 0⟩ 3000 5) ∧
      lookupA (update_link_stats ⟨[], [(("s1", 1), ⟨0, 0, 4, 0⟩)], ∅⟩ "s1" 1
          5000 3000 5).1.flow_counters ("s1", 1) =
        some ⟨5000, 3000, 5, utilizationOf ⟨0, 0, 4, 0⟩ 5000 3000 5⟩) ∧
    update_link_stats ⟨[], [(("s1", 1), ⟨0, 0, 4, 0⟩)], ∅⟩ "s1" 1 5000 3000 4 =
        (⟨[], [(("s1", 1), ⟨0, 0, 4, 0⟩)], ∅⟩, none, []) ∧
    (lbc_process_stat [(("s1", 3), ⟨0, 0, 1000, 2000⟩)] "s1" ⟨3, 6000, 2000⟩).2.1 =
        ((((6000 : Nat) : ℚ) - ((1000 : Nat) : ℚ)) / monitoring_interval,
         (((2000 : Nat) : ℚ) - ((2000 : Nat) : ℚ)) / monitoring_interval) :=
  ⟨(c7_rate_amended.1 ⟨[], [(("s1", 1), ⟨0, 0, 4, 0⟩)], ∅⟩ "s1" 1 5000 3000 5
      ⟨0, 0, 4, 0⟩ rfl).1 dt_four_five_pos,
   (c7_rate_amended.1 ⟨[], [(("s1", 1), ⟨0, 0, 4, 0⟩)], ∅⟩ "s1" 1 5000 3000 4
      ⟨0, 0, 4, 0⟩ rfl).2 dt_four_four_nonpos,
   c7_rate_amended.2 [(("s1", 3), ⟨0, 0, 1000, 2000⟩)] "s1" ⟨3, 6000, 2000⟩
      ⟨0, 0, 1000, 2000⟩ rfl⟩

/-- Claim C5: on every evaluated sample (a known pair with positive elapsed
time), the transition output of SimpleLoadBalancer is edge-triggered with a
strict threshold: Raised is emitted exactly when the utilization strictly
exceeds the threshold while the key is outside the congested set (so a value
exactly at the threshold never raises), Cleared is emitted exactly when the
utilization is at or below the threshold while the key is inside, nothing is
emitted otherwise, and afterwards the key is in the congested set exactly
when the utilization exceeded the threshold — so repeated above-threshold
samples raise once and repeated at-or-below samples clear once. -/
theorem c5_edge_triggered :
    ∀ (s : SLBState) (dpid : String) (port rx tx : Nat) (now : ℚ) (c : PortCounter),
      lookupA s.flow_counters (dpid, port) = some c → 0 < now - c.prev_time →
      ((update_link_stats s dpid port rx tx now).2.2 =
        (if congestion_threshold < utilizationOf c rx tx now then
          (if (dpid, port) ∈ s.congested_links then [] else [Transition.raised dpid port])
         else
          (if (dpid, port) ∈ s.congested_links then [Transition.cleared dpid port] else [])) ∧
       (((dpid, port) ∈ (update_link_stats s dpid port rx tx now).1.congested_links) ↔
        congestion_threshold < utilizationOf c rx tx now)) := by
  intro s dpid port rx tx now c hc ht
  by_cases hu : congestion_threshold < utilizationOf c rx tx now <;>
    by_cases hm2 : (dpid, port) ∈ s.congested_links <;>
    simp [update_link_stats, hc, ht, hu, hm2]

/-- Witness for claim C5 at a concrete input: a sample of 10000000 rx bytes
in one second against capacity 13107200 B/s gives utilization above 0.7, so
the key is raised and enters the congested set. -/
theorem dt_zero_one_pos : (0 : ℚ) < 1 - 0 := by norm_num

/-- A sample of 10000000 rx bytes over one second against capacity 13107200
bytes per second has utilization above the 0.7 threshold. -/
theorem util_above_threshold :
    congestion_threshold < utilizationOf ⟨0, 0, 0, 0⟩ 10000000 0 1 := by
  norm_num [congestion_threshold, utilizationOf, rxRate, txRate, link_capacity]

theorem c5_edge_triggered_witness :
    (update_link_stats ⟨[], [(("s1", 1), ⟨0, 0, 0, 0⟩)], ∅⟩ "s1" 1 10000000 0 1).2.2 =
        [Transition.raised "s1" 1] ∧
    ("s1", 1) ∈ (update_link_stats ⟨[], [(("s1", 1), ⟨0, 0, 0, 0⟩)], ∅⟩ "s1" 1
        10000000 0 1).1.congested_links := by
  have h := c5_edge_triggered ⟨[], [(("s1", 1), ⟨0, 0, 0, 0⟩)], ∅⟩ "s1" 1 10000000 0 1
    ⟨0, 0, 0, 0⟩ rfl dt_zero_one_pos
  refine ⟨?_, h.2.mpr util_above_threshold⟩
  rw [h.1, if_pos util_above_threshold]
  simp

/-- The invariant only mentions flow_counters and congested_links, so it
transfers to any state that agrees on those two fields. -/
theorem SLBInv_of_fields {s s2 : SLBState} (h1 : s2.flow_counters = s.flow_counters)
    (h2 : s2.congested_links = s.congested_links) (h : SLBInv s) : SLBInv s2 := by
  unfold SLBInv at h ⊢
  rw [h1, h2]
  exact h

/-- The invariant holds after overwriting one counter key with a new counter,
provided the new congested set agrees with the old one away from that key and
contains the key exactly when the new counter's stored utilization strictly
exceeds the threshold. -/
theorem SLBInv_mk (s : SLBState) (key : String × Nat) (cNew : PortCounter)
    (S2 : Finset (String × Nat)) (h : SLBInv s)
    (hS : ∀ k, k ∈ S2 ↔
      (if k = key then congestion_threshold < cNew.utilization
       else k ∈ s.congested_links)) :
    SLBInv ⟨s.mac_table, insertA s.flow_counters key cNew, S2⟩ := by
  obtain ⟨h1, h2⟩ := h
  unfold SLBInv
  constructor
  · intro k hk
    by_cases hk2 : k = key
    · subst hk2
      simp [lookupA_insertA_self]
    · rw [lookupA_insertA_ne _ _ _ _ hk2]
      have hmem := (hS k).mp hk
      rw [if_neg hk2] at hmem
      exact h1 k hmem
  · intro k c hkc
    by_cases hk2 : k = key
    · subst hk2
      rw [lookupA_insertA_self] at hkc
      obtain rfl := Option.some.inj hkc
      rw [hS k, if_pos rfl]
    · rw [lookupA_insertA_ne _ _ _ _ hk2] at hkc
      rw [hS k, if_neg hk2]
      exact h2 k c hkc

/-- _update_link_stats preserves the congestion-consistency invariant in
every path: first sample, non-positive elapsed time, raise, steady-congested,
clear, and steady-clear. -/
theorem SLBInv_update_link_stats (s : SLBState) (dpid : String) (port rx tx : Nat)
    (now : ℚ) (h : SLBInv s) : SLBInv (update_link_stats s dpid port rx tx now).1 := by
  cases hc : lookupA s.flow_counters (dpid, port) with
  | none =>
    have he : (update_link_stats s dpid port rx tx now).1 =
        ⟨s.mac_table, insertA s.flow_counters (dpid, port) ⟨rx, tx, now, 0⟩,
         s.congested_links⟩ := by
      simp [update_link_stats, hc]
    rw [he]
    refine SLBInv_mk s (dpid, port) ⟨rx, tx, now, 0⟩ s.congested_links h ?_
    intro k
    by_cases hk2 : k = (dpid, port)
    · subst hk2
      rw [if_pos rfl]
      constructor
      · intro hk
        have hs := h.1 (dpid, port) hk
        rw [hc] at hs
        simp at hs
      · intro hlt
        exfalso
        norm_num [congestion_threshold] at hlt
    · rw [if_neg hk2]
  | some c0 =>
    by_cases ht : 0 < now - c0.prev_time
    · by_cases hu : congestion_threshold < utilizationOf c0 rx tx now
      · by_cases hm2 : (dpid, port) ∈ s.congested_links
        · have he : (update_link_stats s dpid port rx tx now).1 =
              ⟨s.mac_table, insertA s.flow_counters (dpid, port)
                ⟨rx, tx, now, utilizationOf c0 rx tx now⟩, s.congested_links⟩ := by
            simp [update_link_stats, hc, ht, hu, hm2]
          rw [he]
          refine SLBInv_mk s (dpid, port) _ _ h ?_
          intro k
          by_cases hk2 : k = (dpid, port)
          · subst hk2
            rw [if_pos rfl]
            simp [hm2, hu]
          · rw [if_neg hk2]
        · have he : (update_link_stats s dpid port rx tx now).1 =
              ⟨s.mac_table, insertA s.flow_counters (dpid, port)
                ⟨rx, tx, now, utilizationOf c0 rx tx now⟩,
               insert (dpid, port) s.congested_links⟩ := by
            simp [update_link_stats, hc, ht, hu, hm2]
          rw [he]
          refine SLBInv_mk s (dpid, port) _ _ h ?_
          intro k
          by_cases hk2 : k = (dpid, port)
          · subst hk2
            rw [if_pos rfl]
            simp [Finset.mem_insert_self, hu]
          · rw [if_neg hk2]
            simp [Finset.mem_insert, hk2]
      · by_cases hm2 : (dpid, port) ∈ s.congested_links
        · have he : (update_link_stats s dpid port rx tx now).1 =
              ⟨s.mac_table, insertA s.flow_counters (dpid, port)
                ⟨rx, tx, now, utilizationOf c0 rx tx now⟩,
               s.congested_links.erase (dpid, port)⟩ := by
            simp [update_link_stats, hc, ht, hu, hm2]
          rw [he]
          refine SLBInv_mk s (dpid, port) _ _ h ?_
          intro k
          by_cases hk2 : k = (dpid, port)
          · subst hk2
            rw [if_pos rfl]
            simp [Finset.mem_erase, hu]
          · rw [if_neg hk2]
            simp [Finset.mem_erase, hk2]
        · have he : (update_link_stats s dpid port rx tx now).1 =
              ⟨s.mac_table, insertA s.flow_counters (dpid, port)
                ⟨rx, tx, now, utilizationOf c0 rx tx now⟩, s.congested_links⟩ := by
            simp [update_link_stats, hc, ht, hu, hm2]
          rw [he]
          refine SLBInv_mk s (dpid, port) _ _ h ?_
          intro k
          by_cases hk2 : k = (dpid, port)
          · subst hk2
            rw [if_pos rfl]
            simp [hm2, hu]
          · rw [if_neg hk2]
    · have he : update_link_stats s dpid port rx tx now = (s, none, []) := by
        simp [update_link_stats, hc, ht]
      rw [he]
      exact h

/-- The port-stats handler preserves the invariant: it only feeds each
non-reserved port entry through _update_link_stats. -/
theorem SLBInv_portStats (s : SLBState) (dpid : String) (stats : List PortStat) (now : ℚ)
    (h : SLBInv s) : SLBInv (slb_handle_PortStatsReceived s dpid stats now).1 := by
  have hgen : ∀ (stats2 : List PortStat) (acc : SLBState × List Transition), SLBInv acc.1 →
      SLBInv ((stats2.foldl
        (fun acc st =>
          if OFPP_MAX ≤ st.port_no then acc
          else
            let r := update_link_stats acc.1 dpid st.port_no st.rx_bytes st.tx_bytes now
            (r.1, acc.2 ++ r.2.2))
        acc)).1 := by
    intro stats2
    induction stats2 with
    | nil => intro acc hacc; exact hacc
    | cons st rest ih =>
      intro acc hacc
      rw [List.foldl_cons]
      apply ih
      by_cases hp : OFPP_MAX ≤ st.port_no
      · simpa [hp] using hacc
      · simpa [hp] using
          SLBInv_update_link_stats acc.1 dpid st.port_no st.rx_bytes st.tx_bytes now hacc
  exact hgen stats (s, []) h

/-- The packet-in handler of SimpleLoadBalancer never touches flow_counters or
congested_links: every successful outcome changes only the MAC table. -/
theorem slb_packetIn_fields (s : SLBState) (dpid : String) (inPort : Nat) (p : Packet)
    (a : SLBState × List Command) (he : slb_handle_PacketIn s dpid inPort p = some a) :
    a.1.flow_counters = s.flow_counters ∧ a.1.congested_links = s.congested_links := by
  obtain ⟨a1, a2⟩ := a
  by_cases hp : p.parsed = false
  · simp [slb_handle_PacketIn, hp] at he
    obtain ⟨rfl, rfl⟩ := he
    exact ⟨rfl, rfl⟩
  · cases hm : lookupA s.mac_table dpid with
    | none => simp [slb_handle_PacketIn, hp, hm] at he
    | some tbl =>
      by_cases h1 : p.type = PacketType.lldp ∨ p.type = PacketType.ipv6
      · simp [slb_handle_PacketIn, hp, hm, h1] at he
        obtain ⟨rfl, rfl⟩ := he
        exact ⟨rfl, rfl⟩
      · by_cases h2 : p.type = PacketType.arp
        · simp [slb_handle_PacketIn, hp, hm, h1, h2] at he
          obtain ⟨rfl, rfl⟩ := he
          exact ⟨rfl, rfl⟩
        · cases hd : lookupA (slbLearn tbl p.src inPort) p.dst <;>
            simp [slb_handle_PacketIn, hp, hm, h1, h2, hd] at he <;>
            obtain ⟨rfl, rfl⟩ := he <;>
            exact ⟨rfl, rfl⟩

/-- Claim C10: the congestion-consistency invariant holds initially and is
preserved by every event handler of SimpleLoadBalancer (connection-up,
packet-in and port-stats): every (switch, port) key of the congested set has
a port-counter entry, and a key with a port-counter entry is in the congested
set exactly when that entry's stored utilization strictly exceeds the
threshold — so in particular a freshly created entry, stored with
utilization 0, is never in the congested set. -/
theorem c10_congestion_invariant :
    SLBInv slbInit ∧
    ∀ (s : SLBState) (e : SLBEvent) (r : SLBState × List Command × List Transition),
      SLBInv s → slb_step s e = some r → SLBInv r.1 := by
  constructor
  · unfold SLBInv slbInit
    constructor
    · intro k hk
      simp at hk
    · intro k c hkc
      simp [lookupA] at hkc
  · intro s e r h he
    cases e with
    | connectionUp dpid =>
      simp only [slb_step] at he
      obtain rfl := Option.some.inj he
      exact SLBInv_of_fields rfl rfl h
    | packetIn dpid inPort p =>
      simp only [slb_step] at he
      rw [Option.map_eq_some'] at he
      obtain ⟨a, ha, rfl⟩ := he
      obtain ⟨hf, hcg⟩ := slb_packetIn_fields s dpid inPort p a ha
      exact SLBInv_of_fields hf hcg h
    | portStats dpid stats now =>
      simp only [slb_step] at he
      obtain rfl := Option.some.inj he
      exact SLBInv_portStats s dpid stats now h

/-- Witness for claim C10 at a concrete input: the state reached from the
initial state by one port-stats event satisfies the invariant. -/
theorem c10_congestion_invariant_witness :
    SLBInv ⟨[], [(("s1", 1), ⟨100, 200, 5, 0⟩)], ∅⟩ :=
  c10_congestion_invariant.2 slbInit (SLBEvent.portStats "s1" [⟨1, 100, 200⟩] 5)
    (⟨[], [(("s1", 1), ⟨100, 200, 5, 0⟩)], ∅⟩, [], []) c10_congestion_invariant.1 rfl
